import Mathlib

/-!
Shallow embedding of src/src/nautilus-list-view.c (a file manager's list/column
view): column-settings reconciliation, composite sorting (directories first and
per-column comparator), the column-header-click sort-capture state machine,
per-directory metadata fallback for column configuration, and zoom levels.

GTK orderings are embedded as integers, GQuarks as naturals with 0 invalid,
nullable pointers as Option, and external helpers that the source merely calls
(the per-attribute file comparison, the quark-to-string map, settings values)
as explicit parameters of the embedded functions.
-/

namespace NautilusListView

/- GTK ordering constants returned by sorters. -/

def GTK_ORDERING_SMALLER : Int := -1

def GTK_ORDERING_EQUAL : Int := 0

def GTK_ORDERING_LARGER : Int := 1

/- A NautilusFile as far as this view inspects it: whether it is a directory,
plus an identifier standing for the rest of its attributes (the per-attribute
comparison function receives the whole file). -/

structure NautilusFile where
  isDirectory : Bool
  fileId : Nat
deriving DecidableEq, Repr

/- A NautilusViewItem holds a possibly-NULL NautilusFile pointer. -/

structure NautilusViewItem where
  file : Option NautilusFile
deriving DecidableEq, Repr

/- nautilus_view_item_new (file, icon_size): only the file matters here. -/

def nautilus_view_item_new (file : Option NautilusFile) : NautilusViewItem :=
  { file := file }

/- nautilus_file_is_directory is external; on a NULL file its precondition
check fails and it reports FALSE. -/

def nautilus_file_is_directory (f : Option NautilusFile) : Bool :=
  match f with
  | some file => file.isDirectory
  | none => false

/- The column sort hack state stored on the view (lines 50-52 of the source). -/

structure SortHackState where
  column_header_was_clicked : Bool
  clicked_column_attribute_q : Nat
deriving DecidableEq, Repr

/- nautilus_list_view_sort (lines 238-269). The external comparison
nautilus_file_compare_for_sort_by_attribute_q is a parameter
(file_a, file_b, attribute_q, directories_first, reversed). The function first
performs the attribute capture, then the NULL precondition check, then the
comparison with both flags FALSE. It returns the updated hack state and the
GTK ordering. -/

def nautilus_list_view_sort
    (fileCompare : NautilusFile → NautilusFile → Nat → Bool → Bool → Int)
    (st : SortHackState) (attribute_q : Nat)
    (a b : NautilusViewItem) : SortHackState × Int :=
  let st1 :=
    if st.clicked_column_attribute_q = 0 ∧ st.column_header_was_clicked then
      { st with clicked_column_attribute_q := attribute_q }
    else st
  match a.file, b.file with
  | some file_a, some file_b =>
      (st1, fileCompare file_a file_b attribute_q false false)
  | _, _ => (st1, GTK_ORDERING_EQUAL)

/- sort_directories_func (lines 271-295). -/

def sort_directories_func (directories_first : Bool)
    (a b : NautilusViewItem) : Int :=
  if directories_first then
    let a_is_directory := nautilus_file_is_directory a.file
    let b_is_directory := nautilus_file_is_directory b.file
    if a_is_directory && !b_is_directory then GTK_ORDERING_SMALLER
    else if b_is_directory && !a_is_directory then GTK_ORDERING_LARGER
    else GTK_ORDERING_EQUAL
  else GTK_ORDERING_EQUAL

/- GtkMultiSorter over two sorters: the second is consulted only when the
first reports equality. nautilus_list_view_init (lines 1183-1185) appends the
directories sorter first and the column view's sorter second. -/

def gtk_multi_sorter_compare2
    (s1 s2 : NautilusViewItem → NautilusViewItem → Int)
    (a b : NautilusViewItem) : Int :=
  let r := s1 a b
  if r = GTK_ORDERING_EQUAL then s2 a b else r

/- The composite sorter installed on the model in nautilus_list_view_init,
with the active column's comparator abstracted as colCmp. -/

def list_view_composite_compare (directories_first : Bool)
    (colCmp : NautilusViewItem → NautilusViewItem → Int)
    (a b : NautilusViewItem) : Int :=
  gtk_multi_sorter_compare2 (sort_directories_func directories_first) colCmp a b

/- The composite sorter with the real, stateful column comparator: the active
column's GtkCustomSorter calls nautilus_list_view_sort with that column's
attribute quark. -/

def composite_sort_stateful
    (fileCompare : NautilusFile → NautilusFile → Nat → Bool → Bool → Int)
    (directories_first : Bool) (attribute_q : Nat)
    (st : SortHackState) (a b : NautilusViewItem) : SortHackState × Int :=
  let r := sort_directories_func directories_first a b
  if r = GTK_ORDERING_EQUAL then
    nautilus_list_view_sort fileCompare st attribute_q a b
  else (st, r)

/- on_sorter_changed (lines 860-885): sets column_header_was_clicked, clears
clicked_column_attribute_q, and when the model holds exactly one item forces a
comparison of that item against a dummy item built from the same file, through
the installed composite sorter whose active column carries active_attribute_q. -/

def on_sorter_changed
    (fileCompare : NautilusFile → NautilusFile → Nat → Bool → Bool → Int)
    (directories_first : Bool) (active_attribute_q : Nat)
    (model_items : List NautilusViewItem) : SortHackState :=
  let st : SortHackState :=
    { column_header_was_clicked := true, clicked_column_attribute_q := 0 }
  match model_items with
  | [item] =>
      let dummy_item := nautilus_view_item_new item.file
      (composite_sort_stateful fileCompare directories_first active_attribute_q
        st item dummy_item).1
  | _ => st

/- The state of the stateful "sort" action: a (column name, reversed) pair. -/

structure SortActionState where
  sort_text : String
  reversed : Bool
deriving DecidableEq, Repr

/- on_after_sorter_changed (lines 887-920). The external g_quark_to_string is
a parameter. Returns the new "sort" action state (unchanged when the guard
bails out). -/

def on_after_sorter_changed (quark_to_string : Nat → String)
    (st : SortHackState) (state : SortActionState) : SortActionState :=
  if st.column_header_was_clicked = false ∨ st.clicked_column_attribute_q = 0 then
    state
  else
    let new_sort_text := quark_to_string st.clicked_column_attribute_q
    if new_sort_text = state.sort_text then
      { sort_text := new_sort_text, reversed := !state.reversed }
    else
      { sort_text := new_sort_text, reversed := false }

/- Column configuration (lines 62-70, 114-210, 297-374). -/

def default_columns_for_recent : List String := ["name", "size", "recency"]

def default_columns_for_trash : List String := ["name", "size", "trashed_on"]

/- g_ascii_strdown lowercases ASCII letters only, which is exactly what
Char.toLower does. -/

def g_ascii_strdown (s : String) : String := ⟨s.data.map Char.toLower⟩

/- Environment of apply_columns_settings: the starring predicates on the
current location, the column registry for the current file
(nautilus_get_columns_for_file), the names having a view column
(all_view_columns_hash, built by setup_view_columns), and the currently
attached columns of the GtkColumnView, each column identified by its
registry name. -/

structure ColumnsEnv where
  can_star_contents : Bool
  is_starred_directory : Bool
  all_columns : List String
  all_view_columns : List String
  old_view_columns : List String
deriving DecidableEq, Repr

/-- Modelled from the spec: `nautilus_sort_columns` (nautilus-column-utilities.c,
not among this repository's sources) arranges the column list in the requested
order given by `column_order`; columns the order does not mention keep their
place after the ordered ones. Every resulting column comes from `all_columns`. -/
def nautilus_sort_columns (all_columns column_order : List String) :
    List String :=
  column_order.filter (fun name => decide (name ∈ all_columns)) ++
    all_columns.filter (fun name => decide (name ∉ column_order))

/- The visible_columns_hash of apply_columns_settings (lines 145-168): always
"name", conditionally "starred", then every entry of the visible_columns
argument lowercased. Membership is all that matters of the hash table. -/

def visible_columns_hash (env : ColumnsEnv)
    (visible_columns : Option (List String)) : List String :=
  let base :=
    if env.can_star_contents || env.is_starred_directory then
      ["name", "starred"]
    else
      ["name"]
  base ++ (visible_columns.getD []).map g_ascii_strdown

/- The view_columns list computed at lines 170-191: the registry columns in
nautilus_sort_columns order, kept when their lowercased name is in the hash
and a view column exists for them (prepend + reverse = order-preserving
filter). -/

def apply_view_columns (env : ColumnsEnv) (column_order : List String)
    (visible_columns : Option (List String)) : List String :=
  let hash := visible_columns_hash env visible_columns
  (nautilus_sort_columns env.all_columns column_order).filter
    (fun name =>
      decide (g_ascii_strdown name ∈ hash ∧ name ∈ env.all_view_columns))

/- The columns removed at lines 193-203: every attached column not in the
computed view_columns list. -/

def apply_removed_columns (env : ColumnsEnv) (column_order : List String)
    (visible_columns : Option (List String)) : List String :=
  env.old_view_columns.filter
    (fun c => decide (c ∉ apply_view_columns env column_order visible_columns))

/- apply_columns_settings (lines 114-210) summarised by its observable effect:
the removed columns and the surviving columns as re-inserted at consecutive
positions 0, 1, 2, ... (lines 205-209). -/

def apply_columns_settings (env : ColumnsEnv) (column_order : List String)
    (visible_columns : Option (List String)) : List String × List String :=
  (apply_removed_columns env column_order visible_columns,
   apply_view_columns env column_order visible_columns)

/- Per-directory environment for get_visible_columns / get_column_order
(lines 297-374): location predicates, the stored metadata lists (NULL
modelled as none), and the global preference values. -/

structure DirectoryEnv where
  is_in_trash : Bool
  is_in_recent : Bool
  metadata_visible_columns : Option (List String)
  metadata_column_order : Option (List String)
  preferences_visible_columns : List String
  preferences_column_order : List String
deriving DecidableEq, Repr

/- get_default_visible_columns (lines 297-316). -/

def get_default_visible_columns (e : DirectoryEnv) : List String :=
  if e.is_in_trash then default_columns_for_trash
  else if e.is_in_recent then default_columns_for_recent
  else e.preferences_visible_columns

/- get_visible_columns (lines 318-334): metadata unless NULL or empty. -/

def get_visible_columns (e : DirectoryEnv) : List String :=
  match e.metadata_visible_columns with
  | none => get_default_visible_columns e
  | some vs => if vs = [] then get_default_visible_columns e else vs

/- get_default_column_order (lines 336-355). -/

def get_default_column_order (e : DirectoryEnv) : List String :=
  if e.is_in_trash then default_columns_for_trash
  else if e.is_in_recent then default_columns_for_recent
  else e.preferences_column_order

/- get_column_order (lines 357-374): metadata when non-NULL and non-empty. -/

def get_column_order (e : DirectoryEnv) : List String :=
  match e.metadata_column_order with
  | none => get_default_column_order e
  | some vs => if vs = [] then get_default_column_order e else vs

/- Persisted per-directory metadata writes performed by the view. -/

inductive MetadataWrite where
  | visibleColumns (value : Option (List String))
  | columnOrder (value : Option (List String))
  | sortOrder (sort_text : String) (reversed : Bool)
deriving DecidableEq, Repr

/-- Modelled from the spec: `set_directory_sort_metadata` (declared outside this
file) persists the sort attribute name and the reversed flag to the
per-directory sort metadata. -/
def set_directory_sort_metadata (sort_text : String) (reversed : Bool) :
    List MetadataWrite :=
  [MetadataWrite.sortOrder sort_text reversed]

/- column_chooser_changed_callback (lines 449-474): writes both metadata keys
with the chooser's lists (then re-applies the settings). The metadata writes,
in program order. -/

def column_chooser_changed_callback
    (visible_columns column_order : List String) : List MetadataWrite :=
  [MetadataWrite.visibleColumns (some visible_columns),
   MetadataWrite.columnOrder (some column_order)]

/- Result of action_sort_order_changed: the metadata writes it performs, the
new action state, and the column_header_was_clicked flag afterwards. -/

structure SortActionEffects where
  metadata_writes : List MetadataWrite
  new_state : SortActionState
  column_header_was_clicked : Bool
deriving DecidableEq, Repr

/- action_sort_order_changed (lines 601-695): bail out when the value equals
the current state (g_variant_equal); when the name is "unknown" only adopt the
state; otherwise sort (unless the header was just clicked), clear the click
flag, persist the sort metadata and adopt the state. -/

def action_sort_order_changed (current : SortActionState)
    (column_header_was_clicked : Bool) (value : SortActionState) :
    SortActionEffects :=
  if value = current then
    { metadata_writes := []
      new_state := current
      column_header_was_clicked := column_header_was_clicked }
  else if value.sort_text = "unknown" then
    { metadata_writes := []
      new_state := value
      column_header_was_clicked := column_header_was_clicked }
  else
    { metadata_writes := set_directory_sort_metadata value.sort_text value.reversed
      new_state := value
      column_header_was_clicked := false }

/- Zoom levels. The NautilusListZoomLevel enum is declared in a header outside
this repository's sources; modelled from the spec as three consecutive levels
small < medium < large. -/

def NAUTILUS_LIST_ZOOM_LEVEL_SMALL : Int := 0

def NAUTILUS_LIST_ZOOM_LEVEL_MEDIUM : Int := 1

def NAUTILUS_LIST_ZOOM_LEVEL_LARGE : Int := 2

/- GLib's CLAMP macro. -/

def CLAMP (x low high : Int) : Int :=
  if x > high then high else if x < low then low else x

/- get_default_zoom_level (lines 794-806): the stored preference sanitized by
CLAMP into the valid range. -/

def get_default_zoom_level (preference_value : Int) : Int :=
  CLAMP preference_value NAUTILUS_LIST_ZOOM_LEVEL_SMALL
    NAUTILUS_LIST_ZOOM_LEVEL_LARGE

/- real_bump_zoom_level (lines 776-792) followed by action_zoom_to_level /
set_zoom_level: the level changes to zoom_level + zoom_increment exactly when
that value is within range, else stays. -/

def real_bump_zoom_level (zoom_level zoom_increment : Int) : Int :=
  let new_level := zoom_level + zoom_increment
  if NAUTILUS_LIST_ZOOM_LEVEL_SMALL ≤ new_level ∧
      new_level ≤ NAUTILUS_LIST_ZOOM_LEVEL_LARGE then
    new_level
  else zoom_level

/- real_can_zoom_in / real_can_zoom_out (lines 819-833). -/

def real_can_zoom_in (zoom_level : Int) : Bool :=
  zoom_level < NAUTILUS_LIST_ZOOM_LEVEL_LARGE

def real_can_zoom_out (zoom_level : Int) : Bool :=
  zoom_level > NAUTILUS_LIST_ZOOM_LEVEL_SMALL

/- Theorems. -/

/- A concrete environment in which the starred column is user-selected while
the location neither supports starring nor is the starred directory. -/

def c1_env : ColumnsEnv :=
  { can_star_contents := false
    is_starred_directory := false
    all_columns := ["name", "starred"]
    all_view_columns := ["name", "starred"]
    old_view_columns := [] }

/-- Claim C1, counterexample: the claim says the computed set of visible columns
contains "starred" exactly when the location supports starring or is the
starred directory. Here both predicates are false, yet "starred" is computed
visible, because the visible_columns argument itself lists "starred" and
apply_columns_settings inserts every such entry into the hash. -/
theorem c1_counterexample :
    c1_env.can_star_contents = false ∧ c1_env.is_starred_directory = false ∧
      "starred" ∈ visible_columns_hash c1_env (some ["starred"]) ∧
      "starred" ∈ apply_view_columns c1_env ["name", "starred"]
        (some ["starred"]) := by
  decide

/-- Claim C1 (amended): the computed set of visible columns always contains
"name"; it contains "starred" exactly when the location supports starring or
is the starred directory, or the visible_columns argument itself lists a name
that lowercases to "starred"; every currently-attached column not in the
computed view-column list is removed; and the surviving columns, re-inserted
at consecutive positions, follow the requested order given by the column_order
argument (they form a sublist of the nautilus_sort_columns arrangement), a
column surviving exactly when it is in that arrangement, its lowercased name
is in the computed visible set, and it has a registered view column. -/
theorem c1_apply_columns_settings (env : ColumnsEnv) (column_order : List String)
    (visible_columns : Option (List String)) :
    "name" ∈ visible_columns_hash env visible_columns
    ∧ ("starred" ∈ visible_columns_hash env visible_columns ↔
        (env.can_star_contents || env.is_starred_directory) = true
          ∨ "starred" ∈ (visible_columns.getD []).map g_ascii_strdown)
    ∧ (∀ c, c ∈ (apply_columns_settings env column_order visible_columns).1 ↔
        c ∈ env.old_view_columns
          ∧ c ∉ apply_view_columns env column_order visible_columns)
    ∧ (apply_columns_settings env column_order visible_columns).2.Sublist
        (nautilus_sort_columns env.all_columns column_order)
    ∧ (∀ c, c ∈ (apply_columns_settings env column_order visible_columns).2 ↔
        c ∈ nautilus_sort_columns env.all_columns column_order
          ∧ g_ascii_strdown c ∈ visible_columns_hash env visible_columns
          ∧ c ∈ env.all_view_columns) := by
  refine ⟨?_, ?_, ?_, ?_, ?_⟩
  · unfold visible_columns_hash
    split <;> simp
  · unfold visible_columns_hash
    split <;> simp_all
  · intro c
    simp [apply_columns_settings, apply_removed_columns, List.mem_filter]
  · exact List.filter_sublist _
  · intro c
    simp [apply_columns_settings, apply_view_columns, List.mem_filter]

/- Every column produced by the nautilus_sort_columns arrangement comes from
the registry list it arranges. -/

theorem mem_all_columns_of_mem_sort {all order : List String} {name : String}
    (h : name ∈ nautilus_sort_columns all order) : name ∈ all := by
  unfold nautilus_sort_columns at h
  rcases List.mem_append.mp h with h1 | h1
  · simpa using (List.mem_filter.mp h1).2
  · exact (List.mem_filter.mp h1).1

/-- Claim C10: visible-column names are matched against registry column names
case-insensitively (an entry whose ASCII-lowercased form equals a registry
column's lowercased name makes that column visible), and an entry naming a
column absent from the registry is silently ignored: appending it to the
visible-columns list leaves the outcome of apply_columns_settings unchanged. -/
theorem c10_apply_columns_settings_matching (env : ColumnsEnv)
    (column_order vs : List String) (u : String) :
    (g_ascii_strdown u ∉ env.all_columns.map g_ascii_strdown →
      apply_columns_settings env column_order (some (vs ++ [u]))
        = apply_columns_settings env column_order (some vs))
    ∧ (∀ v name, v ∈ vs → g_ascii_strdown v = g_ascii_strdown name →
        name ∈ nautilus_sort_columns env.all_columns column_order →
        name ∈ env.all_view_columns →
        name ∈ apply_view_columns env column_order (some vs)) := by
  constructor
  · intro hu
    have hview : apply_view_columns env column_order (some (vs ++ [u]))
        = apply_view_columns env column_order (some vs) := by
      unfold apply_view_columns
      apply List.filter_congr
      intro name hname
      have hmem : name ∈ env.all_columns := mem_all_columns_of_mem_sort hname
      have hne : g_ascii_strdown name ≠ g_ascii_strdown u := by
        intro heq
        exact hu (heq ▸ List.mem_map_of_mem g_ascii_strdown hmem)
      refine decide_eq_decide.mpr ?_
      unfold visible_columns_hash
      simp only [Option.getD_some, List.map_append, List.map_cons, List.map_nil,
        List.mem_append, List.mem_cons, List.not_mem_nil]
      constructor
      · rintro ⟨h | h | (h | h), hv⟩
        · exact ⟨Or.inl h, hv⟩
        · exact ⟨Or.inr h, hv⟩
        · exact absurd h hne
        · exact absurd h (by simp)
      · rintro ⟨h | h, hv⟩
        · exact ⟨Or.inl h, hv⟩
        · exact ⟨Or.inr (Or.inl h), hv⟩
    unfold apply_columns_settings apply_removed_columns
    rw [hview]
  · intro v name hv hlow hsort hview
    unfold apply_view_columns
    rw [List.mem_filter]
    refine ⟨hsort, ?_⟩
    have : g_ascii_strdown name ∈ visible_columns_hash env (some vs) := by
      unfold visible_columns_hash
      simp only [Option.getD_some, List.mem_append]
      exact Or.inr (hlow ▸ List.mem_map_of_mem g_ascii_strdown hv)
    simpa using ⟨this, hview⟩

/- A concrete environment for the C10 witness. -/

def c10_env : ColumnsEnv :=
  { can_star_contents := false
    is_starred_directory := false
    all_columns := ["name", "size"]
    all_view_columns := ["name", "size"]
    old_view_columns := ["name"] }

/-- Claim C10, witness: appending a bogus entry changes nothing, at a concrete
environment, and a differently-cased entry "SIZE" makes column "size" visible. -/
theorem c10_witness :
    apply_columns_settings c10_env ["name", "size"] (some (["SIZE"] ++ ["bogus"]))
      = apply_columns_settings c10_env ["name", "size"] (some ["SIZE"])
    ∧ "size" ∈ apply_view_columns c10_env ["name", "size"] (some ["SIZE"]) := by
  refine ⟨(c10_apply_columns_settings_matching c10_env ["name", "size"]
      ["SIZE"] "bogus").1 (by decide),
    (c10_apply_columns_settings_matching c10_env ["name", "size"]
      ["SIZE"] "bogus").2 "SIZE" "size" (by decide) (by decide) (by decide)
      (by decide)⟩

/-- Claim C2: with directories-first enabled, the directories-first comparator
orders a directory before a non-directory (and symmetrically after), and so
does the composite sorter, which consults it before the active column's
comparator; when both files agree on directoryness or directories-first is
disabled, the directories-first comparator returns equal and the composite
result is the active column comparator's. -/
theorem c2_sort_directories (directories_first : Bool)
    (colCmp : NautilusViewItem → NautilusViewItem → Int)
    (a b : NautilusViewItem) (fa fb : NautilusFile) :
    (directories_first = true → a.file = some fa → b.file = some fb →
      fa.isDirectory = true → fb.isDirectory = false →
      sort_directories_func directories_first a b = GTK_ORDERING_SMALLER
        ∧ list_view_composite_compare directories_first colCmp a b
            = GTK_ORDERING_SMALLER)
    ∧ (directories_first = true → a.file = some fa → b.file = some fb →
      fb.isDirectory = true → fa.isDirectory = false →
      sort_directories_func directories_first a b = GTK_ORDERING_LARGER
        ∧ list_view_composite_compare directories_first colCmp a b
            = GTK_ORDERING_LARGER)
    ∧ ((directories_first = false
          ∨ nautilus_file_is_directory a.file = nautilus_file_is_directory b.file) →
      sort_directories_func directories_first a b = GTK_ORDERING_EQUAL
        ∧ list_view_composite_compare directories_first colCmp a b
            = colCmp a b) := by
  refine ⟨?_, ?_, ?_⟩
  · intro hdf ha hb hfa hfb
    have h1 : sort_directories_func directories_first a b = GTK_ORDERING_SMALLER := by
      simp [sort_directories_func, nautilus_file_is_directory, hdf, ha, hb, hfa, hfb]
    refine ⟨h1, ?_⟩
    simp [list_view_composite_compare, gtk_multi_sorter_compare2, h1,
      GTK_ORDERING_SMALLER, GTK_ORDERING_EQUAL]
  · intro hdf ha hb hfb hfa
    have h1 : sort_directories_func directories_first a b = GTK_ORDERING_LARGER := by
      simp [sort_directories_func, nautilus_file_is_directory, hdf, ha, hb, hfa, hfb]
    refine ⟨h1, ?_⟩
    simp [list_view_composite_compare, gtk_multi_sorter_compare2, h1,
      GTK_ORDERING_LARGER, GTK_ORDERING_EQUAL]
  · intro h
    have h1 : sort_directories_func directories_first a b = GTK_ORDERING_EQUAL := by
      rcases h with h | h
      · simp [sort_directories_func, h]
      · simp [sort_directories_func, h]
    refine ⟨h1, ?_⟩
    simp [list_view_composite_compare, gtk_multi_sorter_compare2, h1]

/-- Claim C2, witness: a concrete directory is ordered before a concrete
regular file, and two regular files are left to the column comparator. -/
theorem c2_witness :
    (sort_directories_func true ⟨some ⟨true, 0⟩⟩ ⟨some ⟨false, 1⟩⟩
        = GTK_ORDERING_SMALLER
      ∧ list_view_composite_compare true (fun _ _ => 7) ⟨some ⟨true, 0⟩⟩
          ⟨some ⟨false, 1⟩⟩ = GTK_ORDERING_SMALLER)
    ∧ (sort_directories_func true ⟨some ⟨false, 0⟩⟩ ⟨some ⟨false, 1⟩⟩
        = GTK_ORDERING_EQUAL
      ∧ list_view_composite_compare true (fun _ _ => 7) ⟨some ⟨false, 0⟩⟩
          ⟨some ⟨false, 1⟩⟩ = 7) := by
  refine ⟨(c2_sort_directories true (fun _ _ => 7) ⟨some ⟨true, 0⟩⟩
      ⟨some ⟨false, 1⟩⟩ ⟨true, 0⟩ ⟨false, 1⟩).1 rfl rfl rfl rfl rfl,
    (c2_sort_directories true (fun _ _ => 7) ⟨some ⟨false, 0⟩⟩
      ⟨some ⟨false, 1⟩⟩ ⟨false, 0⟩ ⟨false, 1⟩).2.2 (Or.inr rfl)⟩

/-- Claim C3: whatever the hack state and items, when both files are non-NULL
the per-column comparator delegates to the per-attribute file comparison with
the directories_first flag and the reversed flag both FALSE. -/
theorem c3_sort_flags
    (fileCompare : NautilusFile → NautilusFile → Nat → Bool → Bool → Int)
    (st : SortHackState) (attribute_q : Nat) (a b : NautilusViewItem)
    (fa fb : NautilusFile) (ha : a.file = some fa) (hb : b.file = some fb) :
    (nautilus_list_view_sort fileCompare st attribute_q a b).2
      = fileCompare fa fb attribute_q false false := by
  simp [nautilus_list_view_sort, ha, hb]

/-- Claim C3, witness: with a comparison function that reports which flags it
received, the result shows both flags were FALSE. -/
theorem c3_witness :
    (nautilus_list_view_sort
        (fun _ _ _ directories_first reversed =>
          (if directories_first then 1 else 0) + (if reversed then 2 else 0))
        ⟨false, 0⟩ 5 ⟨some ⟨false, 1⟩⟩ ⟨some ⟨false, 2⟩⟩).2 = 0 := by
  simpa using c3_sort_flags
    (fun _ _ _ directories_first reversed =>
      (if directories_first then 1 else 0) + (if reversed then 2 else 0))
    ⟨false, 0⟩ 5 ⟨some ⟨false, 1⟩⟩ ⟨some ⟨false, 2⟩⟩ ⟨false, 1⟩ ⟨false, 2⟩
    rfl rfl

/-- Claim C7: when either item's file is NULL, the per-column comparator
returns GTK_ORDERING_EQUAL (the precondition-failure branch), a total,
non-crashing result. -/
theorem c7_null_file_equal
    (fileCompare : NautilusFile → NautilusFile → Nat → Bool → Bool → Int)
    (st : SortHackState) (attribute_q : Nat) (a b : NautilusViewItem)
    (h : a.file = none ∨ b.file = none) :
    (nautilus_list_view_sort fileCompare st attribute_q a b).2
      = GTK_ORDERING_EQUAL := by
  unfold nautilus_list_view_sort
  rcases h with h | h <;>
    rcases ha : a.file with _ | fa <;> rcases hb : b.file with _ | fb <;>
    simp_all

/-- Claim C7, witness: a concrete comparison with a NULL first file yields
GTK_ORDERING_EQUAL. -/
theorem c7_witness :
    (nautilus_list_view_sort (fun _ _ _ _ _ => 9) ⟨false, 0⟩ 5 ⟨none⟩
      ⟨some ⟨false, 2⟩⟩).2 = GTK_ORDERING_EQUAL :=
  c7_null_file_equal (fun _ _ _ _ _ => 9) ⟨false, 0⟩ 5 ⟨none⟩
    ⟨some ⟨false, 2⟩⟩ (Or.inl rfl)

/-- Claim C5: when the sorter's changed handler runs, it sets
column_header_was_clicked and clears clicked_column_attribute_q to 0 (visible
as the final state whenever the model does not hold exactly one item); from
that state, the first invocation of the per-column comparator stores its sort
attribute into clicked_column_attribute_q; and with exactly one item in the
model, the handler forces a comparison against a dummy item holding the same
file, so the active column's attribute is captured already inside the
handler. -/
theorem c5_sort_capture :
    (∀ (fileCompare : NautilusFile → NautilusFile → Nat → Bool → Bool → Int)
      (directories_first : Bool) (active_attribute_q : Nat)
      (model_items : List NautilusViewItem),
      model_items.length ≠ 1 →
      on_sorter_changed fileCompare directories_first active_attribute_q
          model_items
        = { column_header_was_clicked := true, clicked_column_attribute_q := 0 })
    ∧ (∀ (fileCompare : NautilusFile → NautilusFile → Nat → Bool → Bool → Int)
      (attribute_q : Nat) (a b : NautilusViewItem),
      (nautilus_list_view_sort fileCompare
          { column_header_was_clicked := true, clicked_column_attribute_q := 0 }
          attribute_q a b).1
        = { column_header_was_clicked := true
            clicked_column_attribute_q := attribute_q })
    ∧ (∀ (fileCompare : NautilusFile → NautilusFile → Nat → Bool → Bool → Int)
      (directories_first : Bool) (active_attribute_q : Nat)
      (item : NautilusViewItem),
      on_sorter_changed fileCompare directories_first active_attribute_q [item]
        = { column_header_was_clicked := true
            clicked_column_attribute_q := active_attribute_q }) := by
  refine ⟨?_, ?_, ?_⟩
  · intro fileCompare directories_first active_attribute_q model_items h
    match model_items with
    | [] => rfl
    | [item] => exact absurd rfl h
    | x :: y :: rest => rfl
  · intro fileCompare attribute_q a b
    unfold nautilus_list_view_sort
    rcases a.file with _ | fa <;> rcases b.file with _ | fb <;> simp
  · intro fileCompare directories_first active_attribute_q item
    rcases item with ⟨_ | f⟩ <;>
      cases directories_first <;>
        simp [on_sorter_changed, composite_sort_stateful, sort_directories_func,
          nautilus_view_item_new, nautilus_list_view_sort,
          nautilus_file_is_directory, GTK_ORDERING_EQUAL]

/-- Claim C5, witness: with an empty model the handler leaves the cleared
state, exercising the length hypothesis at a concrete input. -/
theorem c5_witness :
    on_sorter_changed (fun _ _ _ _ _ => 0) false 7 []
      = { column_header_was_clicked := true, clicked_column_attribute_q := 0 } :=
  c5_sort_capture.1 (fun _ _ _ _ _ => 0) false 7 [] (by decide)

/-- Claim C8: when the header was clicked and an attribute was captured, the
after-handler computes the new sort action state: same attribute as the
current state toggles the reversed flag; a different attribute resets the
reversed flag to FALSE and adopts the captured attribute. -/
theorem c8_toggle_or_reset (quark_to_string : Nat → String)
    (st : SortHackState) (state : SortActionState)
    (hclick : st.column_header_was_clicked = true)
    (hq : st.clicked_column_attribute_q ≠ 0) :
    (quark_to_string st.clicked_column_attribute_q = state.sort_text →
      on_after_sorter_changed quark_to_string st state
        = { sort_text := state.sort_text, reversed := !state.reversed })
    ∧ (quark_to_string st.clicked_column_attribute_q ≠ state.sort_text →
      on_after_sorter_changed quark_to_string st state
        = { sort_text := quark_to_string st.clicked_column_attribute_q
            reversed := false }) := by
  constructor
  · intro heq
    unfold on_after_sorter_changed
    rw [if_neg (by simp [hclick, hq]), if_pos heq, heq]
  · intro hne
    unfold on_after_sorter_changed
    rw [if_neg (by simp [hclick, hq]), if_neg hne]

/-- Claim C8, witness: clicking the current sort column toggles reversed, and
clicking another column resets it, at concrete states. -/
theorem c8_witness :
    on_after_sorter_changed (fun n => if n = 1 then "name" else "size")
        ⟨true, 1⟩ ⟨"name", false⟩ = ⟨"name", true⟩
    ∧ on_after_sorter_changed (fun n => if n = 1 then "name" else "size")
        ⟨true, 2⟩ ⟨"name", true⟩ = ⟨"size", false⟩ := by
  refine ⟨(c8_toggle_or_reset (fun n => if n = 1 then "name" else "size")
      ⟨true, 1⟩ ⟨"name", false⟩ rfl (by decide)).1 (by decide),
    (c8_toggle_or_reset (fun n => if n = 1 then "name" else "size")
      ⟨true, 2⟩ ⟨"name", true⟩ rfl (by decide)).2 (by decide)⟩

/-- Claim C4: for any directory whose trash and recent predicates are not both
true, the visible-columns and column-order lists are the per-directory
metadata values when stored non-null and non-empty; otherwise they fall back
to the defaults, which are name/size/trashed_on in trash, name/size/recency
in recent, and the global preference values elsewhere. -/
theorem c4_columns_fallback (e : DirectoryEnv)
    (hx : ¬(e.is_in_trash = true ∧ e.is_in_recent = true)) :
    (∀ vs, e.metadata_visible_columns = some vs → vs ≠ [] →
      get_visible_columns e = vs)
    ∧ (∀ vs, e.metadata_column_order = some vs → vs ≠ [] →
      get_column_order e = vs)
    ∧ ((e.metadata_visible_columns = none
          ∨ e.metadata_visible_columns = some []) →
      get_visible_columns e = get_default_visible_columns e)
    ∧ ((e.metadata_column_order = none ∨ e.metadata_column_order = some []) →
      get_column_order e = get_default_column_order e)
    ∧ (e.is_in_trash = true →
      get_default_visible_columns e = ["name", "size", "trashed_on"]
        ∧ get_default_column_order e = ["name", "size", "trashed_on"])
    ∧ (e.is_in_recent = true →
      get_default_visible_columns e = ["name", "size", "recency"]
        ∧ get_default_column_order e = ["name", "size", "recency"])
    ∧ (e.is_in_trash = false → e.is_in_recent = false →
      get_default_visible_columns e = e.preferences_visible_columns
        ∧ get_default_column_order e = e.preferences_column_order) := by
  refine ⟨?_, ?_, ?_, ?_, ?_, ?_, ?_⟩
  · intro vs hvs hne
    simp [get_visible_columns, hvs, hne]
  · intro vs hvs hne
    simp [get_column_order, hvs, hne]
  · rintro (h | h) <;> simp [get_visible_columns, h]
  · rintro (h | h) <;> simp [get_column_order, h]
  · intro h
    constructor <;>
      simp [get_default_visible_columns, get_default_column_order, h,
        default_columns_for_trash]
  · intro h
    have ht : e.is_in_trash = false := by
      by_contra hc
      exact hx ⟨by simpa using hc, h⟩
    constructor <;>
      simp [get_default_visible_columns, get_default_column_order, h, ht,
        default_columns_for_recent]
  · intro h1 h2
    constructor <;>
      simp [get_default_visible_columns, get_default_column_order, h1, h2]

/-- Claim C4, witness: a trash directory with empty visible-columns metadata
and non-empty column-order metadata, at concrete values. -/
theorem c4_witness :
    get_visible_columns
        { is_in_trash := true, is_in_recent := false
          metadata_visible_columns := some []
          metadata_column_order := some ["size", "name"]
          preferences_visible_columns := ["name"]
          preferences_column_order := ["name"] }
      = ["name", "size", "trashed_on"]
    ∧ get_column_order
        { is_in_trash := true, is_in_recent := false
          metadata_visible_columns := some []
          metadata_column_order := some ["size", "name"]
          preferences_visible_columns := ["name"]
          preferences_column_order := ["name"] }
      = ["size", "name"] := by
  have h := c4_columns_fallback
    { is_in_trash := true, is_in_recent := false
      metadata_visible_columns := some []
      metadata_column_order := some ["size", "name"]
      preferences_visible_columns := ["name"]
      preferences_column_order := ["name"] } (by decide)
  refine ⟨?_, h.2.1 ["size", "name"] rfl (by decide)⟩
  rw [h.2.2.1 (Or.inr rfl)]
  exact (h.2.2.2.2.1 rfl).1

/-- Claim C6: changing the columns through the chooser writes both the
visible-columns and the column-order per-directory metadata keys with the new
lists; and a sort action change to a state that differs from the current one
and carries a known (non-"unknown") column name writes the new sort attribute
and reversed flag to the per-directory sort metadata. -/
theorem c6_persist_settings :
    (∀ (visible_columns column_order : List String),
      MetadataWrite.visibleColumns (some visible_columns)
          ∈ column_chooser_changed_callback visible_columns column_order
        ∧ MetadataWrite.columnOrder (some column_order)
          ∈ column_chooser_changed_callback visible_columns column_order)
    ∧ (∀ (current value : SortActionState) (column_header_was_clicked : Bool),
      value ≠ current → value.sort_text ≠ "unknown" →
      (action_sort_order_changed current column_header_was_clicked
          value).metadata_writes
        = [MetadataWrite.sortOrder value.sort_text value.reversed]) := by
  constructor
  · intro visible_columns column_order
    constructor <;> simp [column_chooser_changed_callback]
  · intro current value column_header_was_clicked hne hunknown
    simp [action_sort_order_changed, hne, hunknown, set_directory_sort_metadata]

/-- Claim C6, witness: a concrete chooser change and a concrete sort change
both produce their metadata writes. -/
theorem c6_witness :
    (MetadataWrite.visibleColumns (some ["name", "size"])
        ∈ column_chooser_changed_callback ["name", "size"] ["size", "name"]
      ∧ MetadataWrite.columnOrder (some ["size", "name"])
        ∈ column_chooser_changed_callback ["name", "size"] ["size", "name"])
    ∧ (action_sort_order_changed ⟨"name", false⟩ false
          ⟨"size", true⟩).metadata_writes
        = [MetadataWrite.sortOrder "size" true] :=
  ⟨c6_persist_settings.1 ["name", "size"] ["size", "name"],
   c6_persist_settings.2 ⟨"name", false⟩ ⟨"size", true⟩ false (by decide)
     (by decide)⟩

/-- Claim C9: the default zoom level is the stored preference clamped into
[SMALL, LARGE]; bumping from a level in that range stays in the range, an
out-of-range bump leaves the level unchanged, and the view can zoom in exactly
below LARGE and zoom out exactly above SMALL. -/
theorem c9_zoom_invariant :
    (∀ preference_value : Int,
      NAUTILUS_LIST_ZOOM_LEVEL_SMALL ≤ get_default_zoom_level preference_value
        ∧ get_default_zoom_level preference_value
            ≤ NAUTILUS_LIST_ZOOM_LEVEL_LARGE)
    ∧ (∀ zoom_level zoom_increment : Int,
      NAUTILUS_LIST_ZOOM_LEVEL_SMALL ≤ zoom_level →
      zoom_level ≤ NAUTILUS_LIST_ZOOM_LEVEL_LARGE →
      NAUTILUS_LIST_ZOOM_LEVEL_SMALL
          ≤ real_bump_zoom_level zoom_level zoom_increment
        ∧ real_bump_zoom_level zoom_level zoom_increment
            ≤ NAUTILUS_LIST_ZOOM_LEVEL_LARGE)
    ∧ (∀ zoom_level zoom_increment : Int,
      ¬(NAUTILUS_LIST_ZOOM_LEVEL_SMALL ≤ zoom_level + zoom_increment
          ∧ zoom_level + zoom_increment ≤ NAUTILUS_LIST_ZOOM_LEVEL_LARGE) →
      real_bump_zoom_level zoom_level zoom_increment = zoom_level)
    ∧ (∀ zoom_level : Int,
      (real_can_zoom_in zoom_level = true
          ↔ zoom_level < NAUTILUS_LIST_ZOOM_LEVEL_LARGE)
        ∧ (real_can_zoom_out zoom_level = true
          ↔ NAUTILUS_LIST_ZOOM_LEVEL_SMALL < zoom_level)) := by
  refine ⟨?_, ?_, ?_, ?_⟩
  · intro preference_value
    simp only [get_default_zoom_level, CLAMP, NAUTILUS_LIST_ZOOM_LEVEL_SMALL,
      NAUTILUS_LIST_ZOOM_LEVEL_LARGE]
    constructor <;> (split_ifs <;> omega)
  · intro zoom_level zoom_increment h1 h2
    simp only [real_bump_zoom_level, NAUTILUS_LIST_ZOOM_LEVEL_SMALL,
      NAUTILUS_LIST_ZOOM_LEVEL_LARGE] at h1 h2 ⊢
    constructor <;> (split_ifs <;> omega)
  · intro zoom_level zoom_increment h
    simp only [real_bump_zoom_level, NAUTILUS_LIST_ZOOM_LEVEL_SMALL,
      NAUTILUS_LIST_ZOOM_LEVEL_LARGE] at h ⊢
    split_ifs
    omega
  · intro zoom_level
    constructor
    · simp [real_can_zoom_in]
    · simp [real_can_zoom_out]

/-- Claim C9, witness: the preference value 9 is clamped to LARGE, bumping
from MEDIUM by 1 stays in range, and bumping from LARGE by 1 is refused. -/
theorem c9_witness :
    (NAUTILUS_LIST_ZOOM_LEVEL_SMALL ≤ get_default_zoom_level 9
      ∧ get_default_zoom_level 9 ≤ NAUTILUS_LIST_ZOOM_LEVEL_LARGE)
    ∧ (NAUTILUS_LIST_ZOOM_LEVEL_SMALL
        ≤ real_bump_zoom_level NAUTILUS_LIST_ZOOM_LEVEL_MEDIUM 1
      ∧ real_bump_zoom_level NAUTILUS_LIST_ZOOM_LEVEL_MEDIUM 1
          ≤ NAUTILUS_LIST_ZOOM_LEVEL_LARGE)
    ∧ real_bump_zoom_level NAUTILUS_LIST_ZOOM_LEVEL_LARGE 1
        = NAUTILUS_LIST_ZOOM_LEVEL_LARGE :=
  ⟨c9_zoom_invariant.1 9,
   c9_zoom_invariant.2.1 NAUTILUS_LIST_ZOOM_LEVEL_MEDIUM 1 (by decide)
     (by decide),
   c9_zoom_invariant.2.2.1 NAUTILUS_LIST_ZOOM_LEVEL_LARGE 1 (by decide)⟩

end NautilusListView
